import Mathlib

/-
Verification of the Screenshot Studio interaction state machine
(src/app.py, src/constants.py, src/utils.py).

The state machine of `App` is shallowly embedded: the mutable fields of the
Python `App` object become a Lean structure `AppState`, the filesystem becomes
an explicit `FS` value (a set of existing paths plus error oracles for the
fallible calls `os.remove`, `shutil.copy2`, `os.rename`, and image decoding),
and each Python method becomes a pure function from the old state (and the
event payload) to the new state.  Python integers are `Nat`/`Int` with the
same `%`, `min`, `max` arithmetic; the `round` builtin is Python's
round-half-to-even, embedded as `pyRound` over `ℚ`; analog axis samples are
embedded as rationals compared against the 0.5 deadzone.
-/

-- ────────────────────────────────────────────────────────────────────────────
-- Scenes, focus, input events (src/constants.py, pygame event payloads)
-- ────────────────────────────────────────────────────────────────────────────

/-- The three scenes: SCENE_BROWSE, SCENE_RENAME, SCENE_CONFIRM_DELETE. -/
inductive Scene
  | browse
  | rename
  | confirmDelete
deriving DecidableEq, Repr

/-- Browse sub-focus: `self.browse_focus` is "image" or "buttons". -/
inductive Focus
  | image
  | buttons
deriving DecidableEq, Repr

/-- A pygame KEYDOWN payload, restricted to the keys the handlers test.
`ch c printable` embeds `event.unicode` being the single character `c`
together with the result of Python's `str.isprintable()` on it; keys whose
`unicode` is empty or that match none of the tested keycodes are `other`. -/
inductive Key
  | left
  | right
  | up
  | down
  | ret
  | space
  | escape
  | backspace
  | ch (c : Char) (printable : Bool)
  | other
deriving DecidableEq, Repr

/-- A pygame event as dispatched by `App.run`'s event loop. -/
inductive Event
  | quit
  | keydown (k : Key)
  | joybutton (b : Nat)
  | joyhat (hx hy : Int)
deriving DecidableEq, Repr

/-- AXIS_DEAD = 0.5 (src/constants.py line 42). -/
def AXIS_DEAD : ℚ := 1 / 2

/-- AXIS_COOLDOWN = 200 ms (src/constants.py line 43). -/
def AXIS_COOLDOWN : Nat := 200

/-- KB_ROWS (src/constants.py lines 23-29): the 5-row virtual keyboard.
`'\x08'` is backspace (DEL), `'\n'` confirm (DONE), `'\x1b'` cancel (BACK). -/
def KB_ROWS : List (List Char) :=
  [ "1234567890".toList,
    "qwertyuiop".toList,
    "asdfghjkl".toList,
    "zxcvbnm".toList,
    [' ', Char.ofNat 8, '-', '_', '.', '\n', Char.ofNat 27] ]

/-- `self.buttons` (src/app.py line 135). -/
def BUTTONS : List String := ["Rename", "Slideshow", "Delete", "Exit"]

/-- The blocklisted filename characters of handle_rename_key
(src/app.py line 358). -/
def FORBIDDEN_CHARS : List Char := "\\/:*?\"<>|".toList

-- ────────────────────────────────────────────────────────────────────────────
-- posixpath helpers (os.path.basename / dirname / join / splitext)
-- ────────────────────────────────────────────────────────────────────────────

/-- Index of the last occurrence of `c` in `l`, or `-1` (Python `str.rfind`). -/
def rfind1 : List Char → Char → Int
  | [], _ => -1
  | x :: xs, c =>
    let r := rfind1 xs c
    if 0 ≤ r then r + 1 else if x = c then 0 else -1

/-- posixpath.basename: everything after the last `/`. -/
def basename (p : String) : String :=
  let l := p.toList
  String.mk (l.drop ((rfind1 l '/') + 1).toNat)

/-- posixpath.dirname: everything up to the last `/`, with trailing
separators stripped unless the head is all separators. -/
def dirname (p : String) : String :=
  let l := p.toList
  let head := l.take ((rfind1 l '/') + 1).toNat
  if (!head.isEmpty) && head.any (fun c => c != '/') then
    String.mk ((head.reverse.dropWhile (fun c => c == '/')).reverse)
  else String.mk head

/-- Whether a path begins with the separator `/`. -/
def startsWithSep (s : String) : Bool :=
  match s.toList with
  | '/' :: _ => true
  | _ => false

/-- Whether a path ends with the separator `/`. -/
def endsWithSep (s : String) : Bool :=
  match s.toList.getLast? with
  | some '/' => true
  | _ => false

/-- posixpath.join for two components. -/
def joinPath (a b : String) : String :=
  if startsWithSep b then b
  else if a = "" ∨ endsWithSep a then a ++ b
  else a ++ "/" ++ b

/-- Python `str.strip()`: remove leading and trailing whitespace. -/
def pyStrip (s : String) : String :=
  String.mk (((s.toList.dropWhile Char.isWhitespace).reverse.dropWhile
    Char.isWhitespace).reverse)

/-- Python `s[:-1]`: drop the last character. -/
def dropLastChar (s : String) : String := String.mk s.toList.dropLast

/-- posixpath.splitext: split off the extension at the last dot of the
basename, unless the basename up to that dot is all dots. -/
def splitext (p : String) : String × String :=
  let l := p.toList
  let sepIdx := rfind1 l '/'
  let dotIdx := rfind1 l '.'
  if sepIdx < dotIdx then
    let name := (l.take dotIdx.toNat).drop (sepIdx + 1).toNat
    if name.any (fun c => c != '.') then
      (String.mk (l.take dotIdx.toNat), String.mk (l.drop dotIdx.toNat))
    else (p, "")
  else (p, "")

-- ────────────────────────────────────────────────────────────────────────────
-- Filesystem model
-- ────────────────────────────────────────────────────────────────────────────

/-- The filesystem: the set of existing paths, plus oracles giving, for each
fallible OS call the code makes, either `none` (the call succeeds) or
`some msg` (the call raises `OSError` with message `msg`).  `decodeOk`
is the oracle for whether `pygame.image.load` succeeds on a path. -/
structure FS where
  files : List String
  removeError : String → Option String
  copyError : String → String → Option String
  renameError : String → String → Option String
  decodeOk : String → Bool

/-- os.path.exists. -/
def FS.pathExists (fs : FS) (p : String) : Bool := fs.files.contains p

/-- os.remove: on success the path is gone from the filesystem. -/
def FS.removeFile (fs : FS) (p : String) : Except String FS :=
  match fs.removeError p with
  | some e => Except.error e
  | none => Except.ok { fs with files := fs.files.filter (fun q => q != p) }

/-- shutil.copy2 src → dest: on success dest exists (overwritten if it did). -/
def FS.copyFile (fs : FS) (src dest : String) : Except String FS :=
  match fs.copyError src dest with
  | some e => Except.error e
  | none =>
    Except.ok { fs with files := if fs.files.contains dest then fs.files else dest :: fs.files }

/-- os.rename old → new: on success old is gone and new exists. -/
def FS.renameFile (fs : FS) (o n : String) : Except String FS :=
  match fs.renameError o n with
  | some e => Except.error e
  | none => Except.ok { fs with files := (fs.files.filter (fun q => q != o)) ++ [n] }

/-- utils.load_image: `some path` stands for a successfully decoded surface,
`none` for a load failure (missing file or decode error). -/
def load_image (fs : FS) (p : String) : Option String :=
  if fs.pathExists p && fs.decodeOk p then some p else none

-- ────────────────────────────────────────────────────────────────────────────
-- App state (the mutable fields of App, src/app.py lines 120-152)
-- ────────────────────────────────────────────────────────────────────────────

/-- The mutable state of the `App` object that the claims are about.
`running = false` embeds `sys.exit` having been called by `shutdown`. -/
structure AppState where
  image_files : List String
  current_index : Nat
  current_image : Option String
  scene : Scene
  axis_cooldown : Nat
  browse_focus : Focus
  button_index : Nat
  toast_text : String
  toast_timer : Nat
  in_slideshow : Bool
  rename_text : String
  rename_ext : String
  kb_row : Nat
  kb_col : Nat
  rename_error : String
  rename_error_timer : Nat
  confirm_choice : Nat
  slideshow_dir : String
  running : Bool
deriving DecidableEq, Repr

/-- App.toast with the default 2500 ms duration (the only duration used). -/
def toast (app : AppState) (message : String) : AppState :=
  { app with toast_text := message, toast_timer := 2500 }

/-- App.shutdown: pygame.quit + sys.exit. -/
def shutdown (app : AppState) : AppState := { app with running := false }

/-- The body of App.check_in_slideshow as a pure value: whether a file with
the current image's basename exists in the slideshow directory. -/
def slideshow_member (fs : FS) (files : List String) (idx : Nat) (sdir : String) : Bool :=
  if files.isEmpty then false
  else fs.pathExists (joinPath sdir (basename (files.getD idx "")))

/-- App.check_in_slideshow (src/app.py lines 156-161). -/
def check_in_slideshow (app : AppState) (fs : FS) : AppState :=
  { app with
    in_slideshow := slideshow_member fs app.image_files app.current_index app.slideshow_dir }

/-- App.toggle_slideshow (src/app.py lines 163-182). -/
def toggle_slideshow (app : AppState) (fs : FS) : AppState × FS :=
  if app.image_files.isEmpty then (app, fs)
  else
    let src := app.image_files.getD app.current_index ""
    let dest := joinPath app.slideshow_dir (basename src)
    if app.in_slideshow then
      match fs.removeFile dest with
      | Except.ok fs1 => (toast { app with in_slideshow := false } "Removed from slideshow", fs1)
      | Except.error e => (toast app ("Error: " ++ e), fs)
    else
      match fs.copyFile src dest with
      | Except.ok fs1 => (toast { app with in_slideshow := true } "Added to slideshow", fs1)
      | Except.error e => (toast app ("Error: " ++ e), fs)

/-- App.enter_delete_confirm (src/app.py lines 186-190). -/
def enter_delete_confirm (app : AppState) : AppState :=
  if app.image_files.isEmpty then app
  else { app with confirm_choice := 1, scene := Scene.confirmDelete }

/-- The path `self.image_files[self.current_index]` read by do_delete,
toggle_slideshow and do_rename. -/
def currentPath (app : AppState) : String := app.image_files.getD app.current_index ""

/-- App.do_delete (src/app.py lines 192-221). -/
def do_delete (app : AppState) (fs : FS) : AppState × FS :=
  if app.image_files.isEmpty then ({ app with scene := Scene.browse }, fs)
  else
    let path := currentPath app
    let base := basename path
    let slideshow_copy := joinPath app.slideshow_dir base
    match fs.removeFile path with
    | Except.error e => (toast { app with scene := Scene.browse } ("Error: " ++ e), fs)
    | Except.ok fs1 =>
      let fs2 :=
        if fs1.pathExists slideshow_copy then
          match fs1.removeFile slideshow_copy with
          | Except.ok fs' => fs'
          | Except.error _ => fs1
        else fs1
      let files' := app.image_files.eraseIdx app.current_index
      let app1 :=
        if files'.isEmpty then
          { app with image_files := files', current_index := 0, current_image := none }
        else
          let i := min app.current_index (files'.length - 1)
          { app with image_files := files', current_index := i,
                     current_image := load_image fs2 (files'.getD i "") }
      let app2 := check_in_slideshow app1 fs2
      ({ toast app2 ("Deleted  " ++ base) with scene := Scene.browse }, fs2)

/-- App.navigate_images (src/app.py lines 225-230).  The index update is the
Python `(self.current_index + delta) % len(self.image_files)`; Python's `%`
with a positive modulus agrees with `Int.emod`. -/
def navigate_images (app : AppState) (fs : FS) (delta : Int) : AppState :=
  if app.image_files.isEmpty then app
  else
    let n := app.image_files.length
    let i := (((app.current_index : Int) + delta) % (n : Int)).toNat
    let app1 := { app with current_index := i,
                           current_image := load_image fs (app.image_files.getD i "") }
    check_in_slideshow app1 fs

/-- App.enter_rename (src/app.py lines 234-246). -/
def enter_rename (app : AppState) : AppState :=
  if app.image_files.isEmpty then app
  else
    let se := splitext (basename (currentPath app))
    { app with rename_text := se.1, rename_ext := se.2, kb_row := 0, kb_col := 0,
               rename_error := "", rename_error_timer := 0, scene := Scene.rename }

/-- A single-quote character, built without a quote literal. -/
def squote : String := String.singleton (Char.ofNat 39)

/-- `new_stem + self.rename_ext` in do_rename. -/
def renameNewFilename (app : AppState) : String := pyStrip app.rename_text ++ app.rename_ext

/-- `os.path.join(directory, new_filename)` in do_rename. -/
def renameNewPath (app : AppState) : String :=
  joinPath (dirname (currentPath app)) (renameNewFilename app)

/-- App.do_rename (src/app.py lines 248-272). -/
def do_rename (app : AppState) (fs : FS) : AppState × FS :=
  let new_stem := pyStrip app.rename_text
  if new_stem = "" then
    ({ app with rename_error := "Name cannot be empty.", rename_error_timer := 2500 }, fs)
  else
    let old_path := currentPath app
    let new_filename := renameNewFilename app
    let new_path := renameNewPath app
    if new_path = old_path then ({ app with scene := Scene.browse }, fs)
    else if fs.pathExists new_path then
      ({ app with rename_error := squote ++ new_filename ++ squote ++ " already exists.",
                  rename_error_timer := 2500 }, fs)
    else
      match fs.renameFile old_path new_path with
      | Except.error e => ({ app with rename_error := e, rename_error_timer := 2500 }, fs)
      | Except.ok fs1 =>
        ({ toast { app with image_files := app.image_files.set app.current_index new_path }
             ("Renamed to  " ++ new_filename) with scene := Scene.browse }, fs1)

/-- Python's builtin `round` on an exact rational: round half to even. -/
def pyRound (q : ℚ) : Int :=
  let f := ⌊q⌋
  let r := q - f
  if r < 1 / 2 then f
  else if 1 / 2 < r then f + 1
  else if f % 2 = 0 then f else f + 1

/-- App.move_kb (src/app.py lines 285-293). -/
def move_kb (app : AppState) (drow dcol : Int) : AppState :=
  if dcol ≠ 0 then
    let rowLen := (KB_ROWS.getD app.kb_row []).length
    { app with
      kb_col := (max 0 (min ((app.kb_col : Int) + dcol) ((rowLen : Int) - 1))).toNat }
  else if drow ≠ 0 then
    let new_row := (max 0 (min ((app.kb_row : Int) + drow) ((KB_ROWS.length : Int) - 1))).toNat
    if new_row ≠ app.kb_row then
      let oldLen := (KB_ROWS.getD app.kb_row []).length
      let newLen := (KB_ROWS.getD new_row []).length
      let frac : ℚ := (app.kb_col : ℚ) / ((max 1 ((oldLen : Int) - 1) : Int) : ℚ)
      { app with
        kb_col := (pyRound (frac * ((max 1 ((newLen : Int) - 1) : Int) : ℚ))).toNat,
        kb_row := new_row }
    else app
  else app

/-- App.press_kb_key (src/app.py lines 274-283).  The `getD` defaults are
never reached while the keyboard cursor is in range. -/
def press_kb_key (app : AppState) (fs : FS) : AppState × FS :=
  let c := (KB_ROWS.getD app.kb_row []).getD app.kb_col ' '
  if c = Char.ofNat 8 then ({ app with rename_text := dropLastChar app.rename_text }, fs)
  else if c = '\n' then do_rename app fs
  else if c = Char.ofNat 27 then ({ app with scene := Scene.browse }, fs)
  else ({ app with rename_text := app.rename_text ++ String.singleton c }, fs)

-- ────────────────────────────────────────────────────────────────────────────
-- Input handlers (src/app.py lines 309-472)
-- ────────────────────────────────────────────────────────────────────────────

/-- App._activate_button (src/app.py lines 462-472). -/
def activate_button (app : AppState) (fs : FS) : AppState × FS :=
  let label := BUTTONS.getD app.button_index ""
  if label = "Exit" then (shutdown app, fs)
  else if label = "Rename" then (enter_rename app, fs)
  else if label = "Slideshow" then toggle_slideshow app fs
  else if label = "Delete" then (enter_delete_confirm app, fs)
  else (app, fs)

/-- App.handle_confirm_key (src/app.py lines 309-318). -/
def handle_confirm_key (app : AppState) (fs : FS) (k : Key) : AppState × FS :=
  if k = Key.escape then ({ app with scene := Scene.browse }, fs)
  else if k = Key.left ∨ k = Key.right then
    ({ app with confirm_choice := 1 - app.confirm_choice }, fs)
  else if k = Key.ret ∨ k = Key.space then
    if app.confirm_choice = 0 then do_delete app fs
    else ({ app with scene := Scene.browse }, fs)
  else (app, fs)

/-- App.handle_browse_key (src/app.py lines 320-338).  The button-index
updates are Python's `(i ± 1) % len(self.buttons)`. -/
def handle_browse_key (app : AppState) (fs : FS) (k : Key) : AppState × FS :=
  if k = Key.escape then (shutdown app, fs)
  else if app.browse_focus = Focus.image then
    match k with
    | Key.left => (navigate_images app fs (-1), fs)
    | Key.right => (navigate_images app fs 1, fs)
    | Key.down => ({ app with browse_focus := Focus.buttons }, fs)
    | _ => (app, fs)
  else
    match k with
    | Key.left =>
      ({ app with button_index := (((app.button_index : Int) - 1) % (BUTTONS.length : Int)).toNat }, fs)
    | Key.right =>
      ({ app with button_index := (((app.button_index : Int) + 1) % (BUTTONS.length : Int)).toNat }, fs)
    | Key.up => ({ app with browse_focus := Focus.image }, fs)
    | Key.ret => activate_button app fs
    | Key.space => activate_button app fs
    | _ => (app, fs)

/-- App.handle_rename_key (src/app.py lines 340-359). -/
def handle_rename_key (app : AppState) (fs : FS) (k : Key) : AppState × FS :=
  match k with
  | Key.escape => ({ app with scene := Scene.browse }, fs)
  | Key.ret => do_rename app fs
  | Key.backspace => ({ app with rename_text := dropLastChar app.rename_text }, fs)
  | Key.left => (move_kb app 0 (-1), fs)
  | Key.right => (move_kb app 0 1, fs)
  | Key.up => (move_kb app (-1) 0, fs)
  | Key.down => (move_kb app 1 0, fs)
  | Key.space => press_kb_key app fs
  | Key.ch c printable =>
    if printable && !(FORBIDDEN_CHARS.contains c) then
      ({ app with rename_text := app.rename_text ++ String.singleton c }, fs)
    else (app, fs)
  | _ => (app, fs)

/-- App.handle_joy_button (src/app.py lines 361-381). -/
def handle_joy_button (app : AppState) (fs : FS) (b : Nat) : AppState × FS :=
  if app.scene = Scene.confirmDelete then
    if b = 0 then
      if app.confirm_choice = 0 then do_delete app fs
      else ({ app with scene := Scene.browse }, fs)
    else if b = 1 then ({ app with scene := Scene.browse }, fs)
    else (app, fs)
  else if app.scene = Scene.browse then
    if b = 0 then
      if app.browse_focus = Focus.buttons then activate_button app fs else (app, fs)
    else if b = 1 then ({ app with browse_focus := Focus.image }, fs)
    else (app, fs)
  else
    if b = 0 then press_kb_key app fs
    else if b = 1 then ({ app with scene := Scene.browse }, fs)
    else (app, fs)

/-- App.handle_joy_hat (src/app.py lines 383-412). -/
def handle_joy_hat (app : AppState) (fs : FS) (hx hy : Int) : AppState × FS :=
  if app.scene = Scene.confirmDelete then
    if hx ≠ 0 then ({ app with confirm_choice := 1 - app.confirm_choice }, fs)
    else (app, fs)
  else if app.scene = Scene.browse then
    if app.browse_focus = Focus.image then
      if hx = -1 then (navigate_images app fs (-1), fs)
      else if hx = 1 then (navigate_images app fs 1, fs)
      else if hy = -1 then ({ app with browse_focus := Focus.buttons }, fs)
      else (app, fs)
    else
      if hx = -1 then
        ({ app with button_index := (((app.button_index : Int) - 1) % (BUTTONS.length : Int)).toNat }, fs)
      else if hx = 1 then
        ({ app with button_index := (((app.button_index : Int) + 1) % (BUTTONS.length : Int)).toNat }, fs)
      else if hy = 1 then ({ app with browse_focus := Focus.image }, fs)
      else (app, fs)
  else
    if hx = -1 then (move_kb app 0 (-1), fs)
    else if hx = 1 then (move_kb app 0 1, fs)
    else if hy = 1 then (move_kb app (-1) 0, fs)
    else if hy = -1 then (move_kb app 1 0, fs)
    else (app, fs)

/-- The body of App.handle_axis (src/app.py lines 414-458) after the axis
sample is taken: returns the new state together with the `moved` flag. -/
def handle_axis_core (app : AppState) (fs : FS) (ax ay : ℚ) : AppState × Bool :=
  if app.scene = Scene.confirmDelete then
    if ax < -AXIS_DEAD ∨ AXIS_DEAD < ax then
      ({ app with confirm_choice := 1 - app.confirm_choice }, true)
    else (app, false)
  else if app.scene = Scene.browse then
    if app.browse_focus = Focus.image then
      if ax < -AXIS_DEAD then (navigate_images app fs (-1), true)
      else if AXIS_DEAD < ax then (navigate_images app fs 1, true)
      else if AXIS_DEAD < ay then ({ app with browse_focus := Focus.buttons }, true)
      else (app, false)
    else
      if ax < -AXIS_DEAD then
        ({ app with button_index := (((app.button_index : Int) - 1) % (BUTTONS.length : Int)).toNat }, true)
      else if AXIS_DEAD < ax then
        ({ app with button_index := (((app.button_index : Int) + 1) % (BUTTONS.length : Int)).toNat }, true)
      else if ay < -AXIS_DEAD then ({ app with browse_focus := Focus.image }, true)
      else (app, false)
  else
    if ax < -AXIS_DEAD then (move_kb app 0 (-1), true)
    else if AXIS_DEAD < ax then (move_kb app 0 1, true)
    else if ay < -AXIS_DEAD then (move_kb app (-1) 0, true)
    else if AXIS_DEAD < ay then (move_kb app 1 0, true)
    else (app, false)

/-- App.handle_axis (src/app.py lines 414-460).  `axes` is `none` when no
joystick is attached, else the two samples `j.get_axis(0)`, `j.get_axis(1)`.
When a branch fired (`moved`), the cooldown is reset to AXIS_COOLDOWN. -/
def handle_axis (app : AppState) (fs : FS) (axes : Option (ℚ × ℚ)) : AppState :=
  match axes with
  | none => app
  | some (ax, ay) =>
    let r := handle_axis_core app fs ax ay
    if r.2 then { r.1 with axis_cooldown := AXIS_COOLDOWN } else r.1

-- ────────────────────────────────────────────────────────────────────────────
-- The frame loop (App.run, src/app.py lines 727-767)
-- ────────────────────────────────────────────────────────────────────────────

/-- One event dispatch of the run loop's `for event in pygame.event.get()`
(src/app.py lines 742-755). -/
def step_event (app : AppState) (fs : FS) (e : Event) : AppState × FS :=
  match e with
  | Event.quit => (shutdown app, fs)
  | Event.keydown k =>
    if app.scene = Scene.browse then handle_browse_key app fs k
    else if app.scene = Scene.confirmDelete then handle_confirm_key app fs k
    else handle_rename_key app fs k
  | Event.joybutton b => handle_joy_button app fs b
  | Event.joyhat hx hy => handle_joy_hat app fs hx hy

/-- The frame's event loop.  Once `sys.exit` has been raised (`running`
cleared) the remaining events are not processed. -/
def process_events (app : AppState) (fs : FS) (es : List Event) : AppState × FS :=
  es.foldl (fun p e => if p.1.running then step_event p.1 p.2 e else p) (app, fs)

/-- The per-frame timer updates (src/app.py lines 729-740): the axis
cooldown, the toast countdown and the rename-error countdown are decremented
by `dt` and clamped at zero (`Nat` subtraction is Python's `max(0, x - dt)`);
the texts are cleared when their countdowns hit zero. -/
def frame_tick (app : AppState) (dt : Nat) : AppState :=
  let a1 := { app with axis_cooldown := app.axis_cooldown - dt }
  let a2 :=
    if 0 < a1.toast_timer then
      if a1.toast_timer - dt = 0 then { a1 with toast_timer := 0, toast_text := "" }
      else { a1 with toast_timer := a1.toast_timer - dt }
    else a1
  if 0 < a2.rename_error_timer then
    if a2.rename_error_timer - dt = 0 then
      { a2 with rename_error_timer := 0, rename_error := "" }
    else { a2 with rename_error_timer := a2.rename_error_timer - dt }
  else a2

/-- The inputs one iteration of App.run consumes: the frame time `dt`
returned by `clock.tick(60)`, the pending events, and the analog axis
sample (none when no joystick is attached). -/
structure FrameInput where
  dt : Nat
  events : List Event
  axes : Option (ℚ × ℚ)
deriving Repr

/-- One iteration of the `while True` loop of App.run (src/app.py lines
727-767), up to drawing: timer ticks, the event loop, then — only when the
cooldown has reached zero and the program is still running — the analog
axis handler. -/
def run_frame (app : AppState) (fs : FS) (inp : FrameInput) : AppState × FS :=
  let p := process_events (frame_tick app inp.dt) fs inp.events
  if p.1.running = true ∧ p.1.axis_cooldown = 0 then (handle_axis p.1 p.2 inp.axes, p.2)
  else p

/-- The image/scene state set up by App.__init__ (src/app.py lines 120-152)
from the directory listing `listing`, followed by the seeding
`check_in_slideshow` call. -/
def init_app (listing : List String) (sdir : String) (fs : FS) : AppState :=
  let app : AppState :=
    { image_files := listing
      current_index := 0
      current_image := if listing.isEmpty then none else load_image fs (listing.getD 0 "")
      scene := Scene.browse
      axis_cooldown := 0
      browse_focus := Focus.image
      button_index := 0
      toast_text := ""
      toast_timer := 0
      in_slideshow := false
      rename_text := ""
      rename_ext := ""
      kb_row := 0
      kb_col := 0
      rename_error := ""
      rename_error_timer := 0
      confirm_choice := 1
      slideshow_dir := sdir
      running := true }
  check_in_slideshow app fs

-- ────────────────────────────────────────────────────────────────────────────
-- Invariants and sample states
-- ────────────────────────────────────────────────────────────────────────────

/-- The cursor-validity invariant (spec §3): whenever ImageSet is non-empty,
the cursor is a valid index into it. -/
def cursorOk (app : AppState) : Prop :=
  app.image_files ≠ [] → app.current_index < app.image_files.length

/-- The scene-guard invariant: the Rename and ConfirmDelete scenes are only
active while ImageSet is non-empty. -/
def sceneOk (app : AppState) : Prop :=
  app.scene = Scene.rename ∨ app.scene = Scene.confirmDelete → app.image_files ≠ []

/-- The combined state-machine invariant. -/
def Good (app : AppState) : Prop := cursorOk app ∧ sceneOk app

instance (app : AppState) : Decidable (cursorOk app) := by
  unfold cursorOk
  infer_instance

instance (app : AppState) : Decidable (sceneOk app) := by
  unfold sceneOk
  infer_instance

instance (app : AppState) : Decidable (Good app) := by
  unfold Good
  infer_instance

/-- A concrete filesystem on which every OS call succeeds. -/
def fs0 : FS :=
  { files := ["shots/a.png", "shots/b.png", "slides/a.png"]
    removeError := fun _ => none
    copyError := fun _ _ => none
    renameError := fun _ _ => none
    decodeOk := fun _ => true }

/-- A concrete app state in the Browse scene with two images. -/
def app0 : AppState :=
  { image_files := ["shots/a.png", "shots/b.png"]
    current_index := 0
    current_image := some "shots/a.png"
    scene := Scene.browse
    axis_cooldown := 0
    browse_focus := Focus.image
    button_index := 0
    toast_text := ""
    toast_timer := 0
    in_slideshow := true
    rename_text := ""
    rename_ext := ""
    kb_row := 0
    kb_col := 0
    rename_error := ""
    rename_error_timer := 0
    confirm_choice := 1
    slideshow_dir := "slides"
    running := true }

-- ────────────────────────────────────────────────────────────────────────────
-- Invariant preservation lemmas
-- ────────────────────────────────────────────────────────────────────────────

/-- `Good` transfers along any operation that keeps the image list and the
cursor and either keeps the scene or moves to Browse. -/
theorem good_transfer {app app' : AppState} (h : Good app)
    (hf : app'.image_files = app.image_files)
    (hi : app'.current_index = app.current_index)
    (hs : app'.scene = app.scene ∨ app'.scene = Scene.browse) : Good app' := by
  obtain ⟨h1, h2⟩ := h
  refine ⟨?_, ?_⟩
  · intro hne
    rw [hf, hi]
    exact h1 (by rw [hf] at hne; exact hne)
  · intro hsc
    rcases hs with hs | hs
    · rw [hf]
      exact h2 (by rw [hs] at hsc; exact hsc)
    · rw [hs] at hsc
      rcases hsc with h' | h' <;> simp at h'

theorem good_toast {app : AppState} {m : String} (h : Good app) : Good (toast app m) :=
  good_transfer h rfl rfl (Or.inl rfl)

theorem good_shutdown {app : AppState} (h : Good app) : Good (shutdown app) :=
  good_transfer h rfl rfl (Or.inl rfl)

theorem good_check_in_slideshow {app : AppState} {fs : FS} (h : Good app) :
    Good (check_in_slideshow app fs) :=
  good_transfer h rfl rfl (Or.inl rfl)

theorem good_navigate {app : AppState} (fs : FS) (d : Int) (h : Good app) :
    Good (navigate_images app fs d) := by
  unfold navigate_images
  dsimp only
  split_ifs with he
  · exact h
  · apply good_check_in_slideshow
    refine ⟨?_, fun hsc => h.2 hsc⟩
    intro _
    have hne : app.image_files ≠ [] := by
      intro hf
      simp [hf] at he
    have hn : 0 < app.image_files.length := List.length_pos.mpr hne
    have h0 : (0 : Int) < (app.image_files.length : Int) := by exact_mod_cast hn
    have hlt := Int.emod_lt_of_pos ((app.current_index : Int) + d) h0
    have hge : 0 ≤ ((app.current_index : Int) + d) % (app.image_files.length : Int) :=
      Int.emod_nonneg _ (by omega)
    show (((app.current_index : Int) + d) % (app.image_files.length : Int)).toNat <
      app.image_files.length
    omega

theorem good_move_kb {app : AppState} (drow dcol : Int) (h : Good app) :
    Good (move_kb app drow dcol) := by
  unfold move_kb
  dsimp only
  split_ifs <;> exact h

theorem good_fields {app' : AppState}
    (hc : app'.image_files ≠ [] → app'.current_index < app'.image_files.length)
    (hs : app'.scene = Scene.browse) : Good app' := by
  refine ⟨hc, fun hsc => ?_⟩
  rw [hs] at hsc
  rcases hsc with h' | h' <;> simp at h'

theorem good_do_delete {app : AppState} (fs : FS) (h : Good app) :
    Good ((do_delete app fs).1) := by
  unfold do_delete
  split_ifs with he
  · exact good_transfer h rfl rfl (Or.inr rfl)
  · dsimp only
    split
    · exact good_transfer h rfl rfl (Or.inr rfl)
    · dsimp only
      apply good_fields
      · intro hne
        dsimp only [toast, check_in_slideshow] at hne ⊢
        split_ifs at hne ⊢ <;>
          first
          | exact absurd
              (by
                simpa [List.isEmpty_iff] using
                  ‹(app.image_files.eraseIdx app.current_index).isEmpty = true›)
              hne
          | · have hn : 0 < (app.image_files.eraseIdx app.current_index).length :=
                List.length_pos.mpr
                  (by
                    simpa [List.isEmpty_iff] using
                      ‹¬(app.image_files.eraseIdx app.current_index).isEmpty = true›)
              dsimp only at hne ⊢
              omega
      · rfl

theorem good_do_rename {app : AppState} (fs : FS) (h : Good app) :
    Good ((do_rename app fs).1) := by
  unfold do_rename
  dsimp only
  split_ifs with h1 h2 h3
  · exact good_transfer h rfl rfl (Or.inl rfl)
  · exact good_transfer h rfl rfl (Or.inr rfl)
  · exact good_transfer h rfl rfl (Or.inl rfl)
  · split
    · exact good_transfer h rfl rfl (Or.inl rfl)
    · refine ⟨fun hne => ?_, fun hsc => ?_⟩
      · show app.current_index < (app.image_files.set app.current_index (renameNewPath app)).length
        rw [List.length_set]
        apply h.1
        intro hf
        apply hne
        show app.image_files.set app.current_index (renameNewPath app) = []
        simp [hf]
      · rcases hsc with h' | h' <;> simp at h'

theorem good_enter_rename {app : AppState} (h : Good app) : Good (enter_rename app) := by
  unfold enter_rename
  split_ifs with he
  · exact h
  · refine ⟨fun _ => h.1 (by simpa [List.isEmpty_iff] using he), fun _ => ?_⟩
    simpa [List.isEmpty_iff] using he

theorem good_enter_delete_confirm {app : AppState} (h : Good app) :
    Good (enter_delete_confirm app) := by
  unfold enter_delete_confirm
  split_ifs with he
  · exact h
  · refine ⟨fun _ => h.1 (by simpa [List.isEmpty_iff] using he), fun _ => ?_⟩
    simpa [List.isEmpty_iff] using he

theorem good_toggle_slideshow {app : AppState} (fs : FS) (h : Good app) :
    Good ((toggle_slideshow app fs).1) := by
  unfold toggle_slideshow
  dsimp only
  split_ifs with he hm
  · exact h
  · split <;> exact good_transfer h rfl rfl (Or.inl rfl)
  · split <;> exact good_transfer h rfl rfl (Or.inl rfl)

theorem good_press_kb_key {app : AppState} (fs : FS) (h : Good app) :
    Good ((press_kb_key app fs).1) := by
  unfold press_kb_key
  dsimp only
  split_ifs with h1 h2 h3
  · exact good_transfer h rfl rfl (Or.inl rfl)
  · exact good_do_rename fs h
  · exact good_transfer h rfl rfl (Or.inr rfl)
  · exact good_transfer h rfl rfl (Or.inl rfl)

theorem good_activate_button {app : AppState} (fs : FS) (h : Good app) :
    Good ((activate_button app fs).1) := by
  unfold activate_button
  dsimp only
  split_ifs with h1 h2 h3 h4
  · exact good_shutdown h
  · exact good_enter_rename h
  · exact good_toggle_slideshow fs h
  · exact good_enter_delete_confirm h
  · exact h

theorem good_handle_confirm_key {app : AppState} (fs : FS) (k : Key) (h : Good app) :
    Good ((handle_confirm_key app fs k).1) := by
  unfold handle_confirm_key
  split_ifs with h1 h2 h3 h4
  · exact good_transfer h rfl rfl (Or.inr rfl)
  · exact good_transfer h rfl rfl (Or.inl rfl)
  · exact good_do_delete fs h
  · exact good_transfer h rfl rfl (Or.inr rfl)
  · exact h

theorem good_handle_browse_key {app : AppState} (fs : FS) (k : Key) (h : Good app) :
    Good ((handle_browse_key app fs k).1) := by
  unfold handle_browse_key
  split_ifs with h1 h2
  · exact good_shutdown h
  · cases k <;> dsimp only
    · exact good_navigate fs (-1) h
    · exact good_navigate fs 1 h
    · exact h
    · exact good_transfer h rfl rfl (Or.inl rfl)
    · exact h
    · exact h
    · exact h
    · exact h
    · exact h
    · exact h
  · cases k <;> dsimp only
    · exact good_transfer h rfl rfl (Or.inl rfl)
    · exact good_transfer h rfl rfl (Or.inl rfl)
    · exact good_transfer h rfl rfl (Or.inl rfl)
    · exact h
    · exact good_activate_button fs h
    · exact good_activate_button fs h
    · exact h
    · exact h
    · exact h
    · exact h

theorem good_handle_rename_key {app : AppState} (fs : FS) (k : Key) (h : Good app) :
    Good ((handle_rename_key app fs k).1) := by
  unfold handle_rename_key
  cases k <;> dsimp only
  · exact good_move_kb 0 (-1) h
  · exact good_move_kb 0 1 h
  · exact good_move_kb (-1) 0 h
  · exact good_move_kb 1 0 h
  · exact good_do_rename fs h
  · exact good_press_kb_key fs h
  · exact good_transfer h rfl rfl (Or.inr rfl)
  · exact good_transfer h rfl rfl (Or.inl rfl)
  · split_ifs
    · exact good_transfer h rfl rfl (Or.inl rfl)
    · exact h
  · exact h

theorem good_handle_joy_button {app : AppState} (fs : FS) (b : Nat) (h : Good app) :
    Good ((handle_joy_button app fs b).1) := by
  unfold handle_joy_button
  split_ifs with h1 h2 h3 h4 h5 h6 h7 h8 h9
  · exact good_do_delete fs h
  · exact good_transfer h rfl rfl (Or.inr rfl)
  · exact good_transfer h rfl rfl (Or.inr rfl)
  · exact h
  · exact good_activate_button fs h
  · exact h
  · exact good_transfer h rfl rfl (Or.inl rfl)
  · exact h
  · exact good_press_kb_key fs h
  · exact good_transfer h rfl rfl (Or.inr rfl)
  · exact h

theorem good_handle_joy_hat {app : AppState} (fs : FS) (hx hy : Int) (h : Good app) :
    Good ((handle_joy_hat app fs hx hy).1) := by
  unfold handle_joy_hat
  split_ifs <;>
    first
    | exact h
    | exact good_transfer h rfl rfl (Or.inl rfl)
    | exact good_navigate fs (-1) h
    | exact good_navigate fs 1 h
    | exact good_move_kb 0 (-1) h
    | exact good_move_kb 0 1 h
    | exact good_move_kb (-1) 0 h
    | exact good_move_kb 1 0 h

theorem good_handle_axis_core {app : AppState} (fs : FS) (ax ay : ℚ) (h : Good app) :
    Good ((handle_axis_core app fs ax ay).1) := by
  unfold handle_axis_core
  split_ifs <;>
    first
    | exact h
    | exact good_transfer h rfl rfl (Or.inl rfl)
    | exact good_navigate fs (-1) h
    | exact good_navigate fs 1 h
    | exact good_move_kb 0 (-1) h
    | exact good_move_kb 0 1 h
    | exact good_move_kb (-1) 0 h
    | exact good_move_kb 1 0 h

theorem good_handle_axis {app : AppState} (fs : FS) (axes : Option (ℚ × ℚ)) (h : Good app) :
    Good (handle_axis app fs axes) := by
  unfold handle_axis
  match axes with
  | none => exact h
  | some (ax, ay) =>
    dsimp only
    split_ifs
    · exact good_transfer (good_handle_axis_core fs ax ay h) rfl rfl (Or.inl rfl)
    · exact good_handle_axis_core fs ax ay h

theorem good_step_event {app : AppState} (fs : FS) (e : Event) (h : Good app) :
    Good ((step_event app fs e).1) := by
  unfold step_event
  cases e <;> dsimp only
  · exact good_shutdown h
  · split_ifs
    · exact good_handle_browse_key fs _ h
    · exact good_handle_confirm_key fs _ h
    · exact good_handle_rename_key fs _ h
  · exact good_handle_joy_button fs _ h
  · exact good_handle_joy_hat fs _ _ h

theorem good_foldl_events (es : List Event) :
    ∀ p : AppState × FS, Good p.1 →
      Good ((es.foldl (fun p e => if p.1.running then step_event p.1 p.2 e else p) p).1) := by
  induction es with
  | nil => intro p h; exact h
  | cons e es ih =>
    intro p h
    rw [List.foldl_cons]
    apply ih
    split_ifs
    · exact good_step_event p.2 e h
    · exact h

theorem good_process_events {app : AppState} (fs : FS) (es : List Event) (h : Good app) :
    Good ((process_events app fs es).1) :=
  good_foldl_events es (app, fs) h

theorem good_frame_tick {app : AppState} (dt : Nat) (h : Good app) :
    Good (frame_tick app dt) := by
  unfold frame_tick
  dsimp only
  split_ifs <;> exact good_transfer h rfl rfl (Or.inl rfl)

theorem good_run_frame {app : AppState} (fs : FS) (inp : FrameInput) (h : Good app) :
    Good ((run_frame app fs inp).1) := by
  unfold run_frame
  dsimp only
  split_ifs
  · exact good_handle_axis _ inp.axes (good_process_events fs inp.events (good_frame_tick inp.dt h))
  · exact good_process_events fs inp.events (good_frame_tick inp.dt h)

theorem good_init (listing : List String) (sdir : String) (fs : FS) :
    Good (init_app listing sdir fs) := by
  refine ⟨fun hne => ?_, fun hsc => ?_⟩
  · exact List.length_pos.mpr (by simpa [init_app, check_in_slideshow] using hne)
  · rcases hsc with h' | h' <;> simp [init_app, check_in_slideshow] at h'

-- ────────────────────────────────────────────────────────────────────────────
-- Navigation lemmas
-- ────────────────────────────────────────────────────────────────────────────

theorem navigate_files_eq (app : AppState) (fs : FS) (d : Int) :
    (navigate_images app fs d).image_files = app.image_files := by
  unfold navigate_images
  dsimp only
  split_ifs <;> rfl

theorem toNat_emod_succ (i n : Nat) : (((i : Int) + 1) % (n : Int)).toNat = (i + 1) % n := by
  rw [show ((i : Int) + 1) = ((i + 1 : Nat) : Int) by push_cast; ring]
  rw [← Int.natCast_mod]
  exact Int.toNat_natCast _

theorem navigate_index_succ (app : AppState) (fs : FS) (hne : app.image_files ≠ []) :
    (navigate_images app fs 1).current_index =
      (app.current_index + 1) % app.image_files.length := by
  unfold navigate_images
  dsimp only
  rw [if_neg (by simpa [List.isEmpty_iff] using hne)]
  dsimp only [check_in_slideshow]
  exact toNat_emod_succ app.current_index app.image_files.length

theorem nav_iterate_index (fs : FS) (L : List String) (hL : L ≠ []) :
    ∀ (k : Nat) (a : AppState), a.image_files = L → a.current_index < L.length →
      ((fun x => navigate_images x fs 1)^[k] a).current_index = (a.current_index + k) % L.length ∧
      ((fun x => navigate_images x fs 1)^[k] a).image_files = L := by
  intro k
  induction k with
  | zero =>
    intro a hf hi
    exact ⟨by simpa using (Nat.mod_eq_of_lt hi).symm, hf⟩
  | succ k ih =>
    intro a hf hi
    rw [Function.iterate_succ_apply']
    obtain ⟨ih1, ih2⟩ := ih a hf hi
    refine ⟨?_, ?_⟩
    · rw [navigate_index_succ _ fs (by rw [ih2]; exact hL), ih1, ih2]
      rw [show a.current_index + (k + 1) = a.current_index + k + 1 by ring]
      exact (Nat.mod_modEq (a.current_index + k) L.length).add_right 1
    · rw [navigate_files_eq, ih2]

-- ────────────────────────────────────────────────────────────────────────────
-- Claim theorems
-- ────────────────────────────────────────────────────────────────────────────

/-- C1: starting from the initial state, and preserved by every frame of the
run loop (hence by every operation the state machine performs: navigation,
rename commit, delete commit, slideshow toggle and all scene transitions),
whenever ImageSet is non-empty the cursor is a valid index into it; hence no
guarded operation ever indexes an empty ImageSet. -/
theorem C1_cursor_validity_invariant :
    (∀ (listing : List String) (sdir : String) (fs : FS), Good (init_app listing sdir fs)) ∧
    (∀ (app : AppState) (fs : FS) (inp : FrameInput),
       Good app → Good ((run_frame app fs inp).1)) ∧
    (∀ app : AppState, Good app → app.image_files ≠ [] →
       app.current_index < app.image_files.length) :=
  ⟨good_init, fun _ fs inp h => good_run_frame fs inp h, fun _ h => h.1⟩

/-- Witness for C1 at a concrete state and frame input. -/
theorem C1_witness :
    Good app0 ∧
    Good ((run_frame app0 fs0 { dt := 16, events := [Event.keydown Key.right], axes := none }).1) :=
  ⟨by decide,
   C1_cursor_validity_invariant.2.1 app0 fs0
     { dt := 16, events := [Event.keydown Key.right], axes := none } (by decide)⟩

/-- C2: on a non-empty ImageSet of length N, starting from any valid cursor,
N relative navigations by +1 (each computing `(index + 1) mod N`) return the
cursor to its starting index; on an empty ImageSet navigate-image is a no-op
for every delta. -/
theorem C2_navigation_wraparound :
    (∀ (app : AppState) (fs : FS), app.image_files ≠ [] →
       app.current_index < app.image_files.length →
       ((fun x => navigate_images x fs 1)^[app.image_files.length] app).current_index =
         app.current_index) ∧
    (∀ (app : AppState) (fs : FS) (d : Int), app.image_files = [] →
       navigate_images app fs d = app) := by
  refine ⟨fun app fs hne hlt => ?_, fun app fs d he => ?_⟩
  · have h := (nav_iterate_index fs app.image_files hne app.image_files.length app rfl hlt).1
    rw [h, Nat.add_mod_right, Nat.mod_eq_of_lt hlt]
  · unfold navigate_images
    rw [if_pos (by simp [he])]

/-- Witness for C2 at a concrete two-image state. -/
theorem C2_witness :
    app0.image_files ≠ [] ∧ app0.current_index < app0.image_files.length ∧
    ((fun x => navigate_images x fs0 1)^[app0.image_files.length] app0).current_index =
      app0.current_index :=
  ⟨by decide, by decide, C2_navigation_wraparound.1 app0 fs0 (by decide) (by decide)⟩

/-- C10: the invariant that Rename and ConfirmDelete are only active on a
non-empty ImageSet holds initially, is preserved by every frame, and the
scene-entry guards return unchanged state on an empty set; consequently in
any invariant state with the Rename scene active the unguarded access
`image_files[current_index]` of the rename commit is in bounds. -/
theorem C10_rename_scene_nonempty :
    (∀ (listing : List String) (sdir : String) (fs : FS), Good (init_app listing sdir fs)) ∧
    (∀ (app : AppState) (fs : FS) (inp : FrameInput),
       Good app → Good ((run_frame app fs inp).1)) ∧
    (∀ app : AppState, app.image_files = [] → enter_rename app = app) ∧
    (∀ app : AppState, app.image_files = [] → enter_delete_confirm app = app) ∧
    (∀ app : AppState, Good app →
       app.scene = Scene.rename ∨ app.scene = Scene.confirmDelete →
       app.image_files ≠ [] ∧ app.current_index < app.image_files.length) := by
  refine ⟨good_init, fun _ fs inp h => good_run_frame fs inp h, fun app he => ?_,
    fun app he => ?_, fun app h hsc => ⟨h.2 hsc, h.1 (h.2 hsc)⟩⟩
  · unfold enter_rename
    rw [if_pos (by simp [he])]
  · unfold enter_delete_confirm
    rw [if_pos (by simp [he])]

/-- Witness for C10 at a concrete Rename-scene state. -/
theorem C10_witness :
    Good { app0 with scene := Scene.rename } ∧
    { app0 with scene := Scene.rename }.image_files ≠ [] ∧
    { app0 with scene := Scene.rename }.current_index <
      { app0 with scene := Scene.rename }.image_files.length :=
  ⟨by decide,
   C10_rename_scene_nonempty.2.2.2.2 { app0 with scene := Scene.rename } (by decide)
     (Or.inl rfl)⟩

/-- C3: a delete commit on a non-empty ImageSet whose primary `os.remove`
succeeds removes the entry at the cursor; if the set stays non-empty the
cursor becomes `min(cursor, new_length - 1)` and the image at the new cursor
is reloaded, if it becomes empty the cursor resets to 0 and the current
image is cleared; slideshow membership is recomputed against the resulting
filesystem, a toast names the deleted file, and the scene returns to
Browse. -/
theorem C3_delete_success (app : AppState) (fs : FS)
    (hne : app.image_files ≠ [])
    (_hidx : app.current_index < app.image_files.length)
    (hrm : fs.removeError (currentPath app) = none) :
    (do_delete app fs).1.image_files = app.image_files.eraseIdx app.current_index ∧
    ((do_delete app fs).1.image_files ≠ [] →
      (do_delete app fs).1.current_index =
        min app.current_index ((do_delete app fs).1.image_files.length - 1) ∧
      (do_delete app fs).1.current_image =
        load_image (do_delete app fs).2
          ((do_delete app fs).1.image_files.getD (do_delete app fs).1.current_index "")) ∧
    ((do_delete app fs).1.image_files = [] →
      (do_delete app fs).1.current_index = 0 ∧ (do_delete app fs).1.current_image = none) ∧
    (do_delete app fs).1.in_slideshow =
      slideshow_member (do_delete app fs).2 (do_delete app fs).1.image_files
        (do_delete app fs).1.current_index app.slideshow_dir ∧
    (do_delete app fs).1.toast_text = "Deleted  " ++ basename (currentPath app) ∧
    (do_delete app fs).1.toast_timer = 2500 ∧
    (do_delete app fs).1.scene = Scene.browse := by
  have hres : fs.removeFile (currentPath app) =
      Except.ok { fs with files := fs.files.filter (fun q => q != currentPath app) } := by
    unfold FS.removeFile
    rw [hrm]
  unfold do_delete
  rw [if_neg (by simpa [List.isEmpty_iff] using hne)]
  dsimp only
  rw [hres]
  dsimp only [toast, check_in_slideshow]
  split_ifs <;> refine ⟨rfl, ?_, ?_, rfl, rfl, rfl, rfl⟩ <;>
    first
    | exact fun h =>
        absurd
          (by
            simpa [List.isEmpty_iff] using
              ‹(app.image_files.eraseIdx app.current_index).isEmpty = true›)
          h
    | exact fun h =>
        absurd h
          (by
            simpa [List.isEmpty_iff] using
              ‹¬(app.image_files.eraseIdx app.current_index).isEmpty = true›)
    | exact fun _ => ⟨rfl, rfl⟩

/-- Witness for C3: deleting the first of two images with all OS calls
succeeding. -/
theorem C3_witness :
    app0.image_files ≠ [] ∧ app0.current_index < app0.image_files.length ∧
    fs0.removeError (currentPath app0) = none ∧
    (do_delete app0 fs0).1.image_files = app0.image_files.eraseIdx app0.current_index ∧
    (do_delete app0 fs0).1.toast_text = "Deleted  " ++ basename (currentPath app0) ∧
    (do_delete app0 fs0).1.scene = Scene.browse :=
  ⟨by decide, by decide, rfl,
   (C3_delete_success app0 fs0 (by decide) (by decide) rfl).1,
   (C3_delete_success app0 fs0 (by decide) (by decide) rfl).2.2.2.2.1,
   (C3_delete_success app0 fs0 (by decide) (by decide) rfl).2.2.2.2.2.2⟩

/-- C5: when the primary `os.remove` of a delete commit fails, the error is
surfaced as a toast, the scene returns to Browse, and nothing else changes:
ImageSet, cursor and the whole remaining state are untouched and the
filesystem (including the slideshow copy) is left exactly as it was. -/
theorem C5_delete_failure_atomic (app : AppState) (fs : FS) (e : String)
    (hne : app.image_files ≠ [])
    (hrm : fs.removeError (currentPath app) = some e) :
    (do_delete app fs).1 =
      { app with toast_text := "Error: " ++ e, toast_timer := 2500, scene := Scene.browse } ∧
    (do_delete app fs).2 = fs := by
  have hres : fs.removeFile (currentPath app) = Except.error e := by
    unfold FS.removeFile
    rw [hrm]
  unfold do_delete
  rw [if_neg (by simpa [List.isEmpty_iff] using hne)]
  dsimp only
  rw [hres]
  exact ⟨rfl, rfl⟩

/-- Witness for C5: a failing primary delete on a concrete state. -/
theorem C5_witness :
    (do_delete app0
        { fs0 with removeError := fun _ => some "Permission denied" }).1 =
      { app0 with toast_text := "Error: " ++ "Permission denied", toast_timer := 2500,
                  scene := Scene.browse } ∧
    (do_delete app0 { fs0 with removeError := fun _ => some "Permission denied" }).2 =
      { fs0 with removeError := fun _ => some "Permission denied" } :=
  C5_delete_failure_atomic app0 { fs0 with removeError := fun _ => some "Permission denied" }
    "Permission denied" (by decide) rfl

/-- C4: each of the three rename-commit failures — empty trimmed stem, a
file already existing at the computed new path, and an `os.rename` OS error
— sets the user-visible error string with a 2500 ms timer and changes
nothing else: the scene field (hence Rename) and the ImageSet are untouched
and the filesystem is unchanged. -/
theorem C4_rename_failures (app : AppState) (fs : FS) :
    (pyStrip app.rename_text = "" →
      (do_rename app fs).1 =
        { app with rename_error := "Name cannot be empty.", rename_error_timer := 2500 } ∧
      (do_rename app fs).2 = fs) ∧
    (pyStrip app.rename_text ≠ "" → renameNewPath app ≠ currentPath app →
      fs.pathExists (renameNewPath app) = true →
      (do_rename app fs).1 =
        { app with
            rename_error := squote ++ renameNewFilename app ++ squote ++ " already exists.",
            rename_error_timer := 2500 } ∧
      (do_rename app fs).2 = fs) ∧
    (∀ e, pyStrip app.rename_text ≠ "" → renameNewPath app ≠ currentPath app →
      fs.pathExists (renameNewPath app) = false →
      fs.renameError (currentPath app) (renameNewPath app) = some e →
      (do_rename app fs).1 = { app with rename_error := e, rename_error_timer := 2500 } ∧
      (do_rename app fs).2 = fs) := by
  refine ⟨fun h1 => ?_, fun h1 h2 h3 => ?_, fun e h1 h2 h3 h4 => ?_⟩
  · unfold do_rename
    rw [if_pos h1]
    exact ⟨rfl, rfl⟩
  · unfold do_rename
    dsimp only
    rw [if_neg h1, if_neg h2, if_pos h3]
    exact ⟨rfl, rfl⟩
  · have hres : fs.renameFile (currentPath app) (renameNewPath app) = Except.error e := by
      unfold FS.renameFile
      rw [h4]
    unfold do_rename
    dsimp only
    rw [if_neg h1, if_neg h2, if_neg (by simp [h3]), hres]
    exact ⟨rfl, rfl⟩

/-- Witness for C4: the three failure modes on concrete states — an
all-whitespace name, a collision with the existing `shots/b.png`, and an OS
rename error. -/
theorem C4_witness :
    ((do_rename { app0 with scene := Scene.rename, rename_text := "   " } fs0).1 = { { app0 with scene := Scene.rename, rename_text := "   " } with rename_error := "Name cannot be empty.", rename_error_timer := 2500 } ∧
     (do_rename { app0 with scene := Scene.rename, rename_text := "   " } fs0).2 = fs0) ∧
    ((do_rename { app0 with scene := Scene.rename, rename_text := "b", rename_ext := ".png" } fs0).1 = { { app0 with scene := Scene.rename, rename_text := "b", rename_ext := ".png" } with rename_error := squote ++ "b.png" ++ squote ++ " already exists.", rename_error_timer := 2500 } ∧
     (do_rename { app0 with scene := Scene.rename, rename_text := "b", rename_ext := ".png" } fs0).2 = fs0) ∧
    ((do_rename { app0 with scene := Scene.rename, rename_text := "c", rename_ext := ".png" } { fs0 with renameError := fun _ _ => some "Read-only file system" }).1 = { { app0 with scene := Scene.rename, rename_text := "c", rename_ext := ".png" } with rename_error := "Read-only file system", rename_error_timer := 2500 } ∧
     (do_rename { app0 with scene := Scene.rename, rename_text := "c", rename_ext := ".png" } { fs0 with renameError := fun _ _ => some "Read-only file system" }).2 = { fs0 with renameError := fun _ _ => some "Read-only file system" }) :=
  ⟨(C4_rename_failures { app0 with scene := Scene.rename, rename_text := "   " } fs0).1 (by decide),
   (C4_rename_failures { app0 with scene := Scene.rename, rename_text := "b", rename_ext := ".png" } fs0).2.1 (by decide) (by decide) (by decide),
   (C4_rename_failures { app0 with scene := Scene.rename, rename_text := "c", rename_ext := ".png" } { fs0 with renameError := fun _ _ => some "Read-only file system" }).2.2 "Read-only file system" (by decide) (by decide) (by decide) rfl⟩

/-- Filtering away an element that is not in the list leaves it unchanged. -/
theorem filter_ne_of_not_mem (l : List String) (d : String) (h : d ∉ l) :
    l.filter (fun q => q != d) = l := by
  induction l with
  | nil => rfl
  | cons x xs ih =>
    simp only [List.mem_cons, not_or] at h
    have hx : (x != d) = true := by
      simpa [bne_iff_ne] using fun hx => h.1 hx.symm
    rw [List.filter_cons, if_pos hx, ih h.2]

/-- C6: for a current image whose slideshow membership flag matches the
directory (not a member, no same-named copy present), toggling twice with
both OS calls succeeding copies the file in and then removes it, leaving
the slideshow directory's contents exactly as before, with the membership
flag agreeing with the directory after each step; and a toggle whose OS
call fails (copy or remove) leaves the membership flag and the filesystem
unchanged. -/
theorem C6_slideshow_toggle_roundtrip :
    (∀ (app : AppState) (fs : FS), app.image_files ≠ [] →
      app.in_slideshow = false →
      fs.files.contains (joinPath app.slideshow_dir (basename (currentPath app))) = false →
      fs.copyError (currentPath app)
        (joinPath app.slideshow_dir (basename (currentPath app))) = none →
      fs.removeError (joinPath app.slideshow_dir (basename (currentPath app))) = none →
      (toggle_slideshow app fs).1.in_slideshow = true ∧
      (toggle_slideshow app fs).2.pathExists
        (joinPath app.slideshow_dir (basename (currentPath app))) = true ∧
      (toggle_slideshow (toggle_slideshow app fs).1 (toggle_slideshow app fs).2).1.in_slideshow =
        false ∧
      (toggle_slideshow (toggle_slideshow app fs).1 (toggle_slideshow app fs).2).2.pathExists
        (joinPath app.slideshow_dir (basename (currentPath app))) = false ∧
      (toggle_slideshow (toggle_slideshow app fs).1 (toggle_slideshow app fs).2).2.files =
        fs.files) ∧
    (∀ (app : AppState) (fs : FS) (e : String), app.image_files ≠ [] →
      app.in_slideshow = true →
      fs.removeError (joinPath app.slideshow_dir (basename (currentPath app))) = some e →
      (toggle_slideshow app fs).1.in_slideshow = true ∧ (toggle_slideshow app fs).2 = fs) ∧
    (∀ (app : AppState) (fs : FS) (e : String), app.image_files ≠ [] →
      app.in_slideshow = false →
      fs.copyError (currentPath app)
        (joinPath app.slideshow_dir (basename (currentPath app))) = some e →
      (toggle_slideshow app fs).1.in_slideshow = false ∧ (toggle_slideshow app fs).2 = fs) := by
  refine ⟨fun app fs hne hm hd hc hr => ?_, fun app fs e hne hm hr => ?_,
    fun app fs e hne hm hc => ?_⟩
  · have hne' : app.image_files.isEmpty = false := by simpa [List.isEmpty_iff] using hne
    simp only [currentPath] at hc hd hr
    simp at hc hd hr
    simp [toggle_slideshow, FS.copyFile, FS.removeFile, FS.pathExists, toast, currentPath, hne',
      hm, hc, hd, hr, filter_ne_of_not_mem]
  · have hne' : app.image_files.isEmpty = false := by simpa [List.isEmpty_iff] using hne
    simp only [currentPath] at hr
    simp at hr
    simp [toggle_slideshow, FS.removeFile, toast, currentPath, hne', hm, hr]
  · have hne' : app.image_files.isEmpty = false := by simpa [List.isEmpty_iff] using hne
    simp only [currentPath] at hc
    simp at hc
    simp [toggle_slideshow, FS.copyFile, toast, currentPath, hne', hm, hc]

/-- Witness for C6: toggling the second image (not currently in the
slideshow) twice on a concrete filesystem where both OS calls succeed. -/
theorem C6_witness :
    (toggle_slideshow { app0 with current_index := 1, in_slideshow := false } fs0).1.in_slideshow = true ∧
    (toggle_slideshow { app0 with current_index := 1, in_slideshow := false } fs0).2.pathExists (joinPath { app0 with current_index := 1, in_slideshow := false }.slideshow_dir (basename (currentPath { app0 with current_index := 1, in_slideshow := false }))) = true ∧
    (toggle_slideshow (toggle_slideshow { app0 with current_index := 1, in_slideshow := false } fs0).1 (toggle_slideshow { app0 with current_index := 1, in_slideshow := false } fs0).2).1.in_slideshow = false ∧
    (toggle_slideshow (toggle_slideshow { app0 with current_index := 1, in_slideshow := false } fs0).1 (toggle_slideshow { app0 with current_index := 1, in_slideshow := false } fs0).2).2.pathExists (joinPath { app0 with current_index := 1, in_slideshow := false }.slideshow_dir (basename (currentPath { app0 with current_index := 1, in_slideshow := false }))) = false ∧
    (toggle_slideshow (toggle_slideshow { app0 with current_index := 1, in_slideshow := false } fs0).1 (toggle_slideshow { app0 with current_index := 1, in_slideshow := false } fs0).2).2.files = fs0.files :=
  C6_slideshow_toggle_roundtrip.1 { app0 with current_index := 1, in_slideshow := false } fs0
    (by decide) rfl (by decide) rfl rfl

/-- C7 counterexample: in the ConfirmDelete scene a purely vertical
directional input — hat value (0, 1), the up arrow key, or a vertical-axis
deflection of magnitude 1 (beyond the 0.5 deadzone) — leaves the choice
unchanged at Cancel (1), contradicting the claim that any directional input
flips it. -/
theorem C7_counterexample :
    { app0 with scene := Scene.confirmDelete }.scene = Scene.confirmDelete ∧
    { app0 with scene := Scene.confirmDelete }.confirm_choice = 1 ∧
    (handle_joy_hat { app0 with scene := Scene.confirmDelete } fs0 0 1).1.confirm_choice = 1 ∧
    (handle_confirm_key { app0 with scene := Scene.confirmDelete } fs0 Key.up).1.confirm_choice = 1 ∧
    AXIS_DEAD < (1 : ℚ) ∧
    handle_axis { app0 with scene := Scene.confirmDelete } fs0 (some (0, 1)) =
      { app0 with scene := Scene.confirmDelete } := by
  refine ⟨rfl, rfl, by decide, by decide, by norm_num [AXIS_DEAD], ?_⟩
  norm_num [handle_axis, handle_axis_core, AXIS_DEAD]

/-- C7 amended: in the ConfirmDelete scene every horizontal directional
input — the left or right arrow key, a hat deflection with nonzero
horizontal component, or a horizontal-axis deflection beyond the deadzone in
either direction — flips the choice between Delete (0) and Cancel (1), while
vertical inputs leave it unchanged. -/
theorem C7_confirm_toggle_horizontal (app : AppState) (fs : FS)
    (hsc : app.scene = Scene.confirmDelete) :
    (handle_confirm_key app fs Key.left).1.confirm_choice = 1 - app.confirm_choice ∧
    (handle_confirm_key app fs Key.right).1.confirm_choice = 1 - app.confirm_choice ∧
    (∀ hx hy : Int, hx ≠ 0 →
      (handle_joy_hat app fs hx hy).1.confirm_choice = 1 - app.confirm_choice) ∧
    (∀ ax ay : ℚ, ax < -AXIS_DEAD ∨ AXIS_DEAD < ax →
      handle_axis app fs (some (ax, ay)) =
        { app with confirm_choice := 1 - app.confirm_choice,
                   axis_cooldown := AXIS_COOLDOWN }) ∧
    (∀ hy : Int, (handle_joy_hat app fs 0 hy).1.confirm_choice = app.confirm_choice) ∧
    (handle_confirm_key app fs Key.up).1.confirm_choice = app.confirm_choice ∧
    (handle_confirm_key app fs Key.down).1.confirm_choice = app.confirm_choice := by
  refine ⟨by simp [handle_confirm_key], by simp [handle_confirm_key],
    fun hx hy hhx => ?_, fun ax ay hax => ?_, fun hy => ?_,
    by simp [handle_confirm_key], by simp [handle_confirm_key]⟩
  · simp [handle_joy_hat, hsc, hhx]
  · simp only [handle_axis, handle_axis_core, hsc]
    simp [hax]
  · simp [handle_joy_hat, hsc]

/-- Witness for C7 amended: a concrete ConfirmDelete state toggled by a
right hat deflection and by a full-right stick deflection. -/
theorem C7_witness :
    (handle_joy_hat { app0 with scene := Scene.confirmDelete } fs0 1 0).1.confirm_choice =
      1 - { app0 with scene := Scene.confirmDelete }.confirm_choice ∧
    handle_axis { app0 with scene := Scene.confirmDelete } fs0 (some (1, 0)) =
      { { app0 with scene := Scene.confirmDelete } with
          confirm_choice := 1 - { app0 with scene := Scene.confirmDelete }.confirm_choice,
          axis_cooldown := AXIS_COOLDOWN } :=
  ⟨(C7_confirm_toggle_horizontal { app0 with scene := Scene.confirmDelete } fs0 rfl).2.2.1
     1 0 (by decide),
   (C7_confirm_toggle_horizontal { app0 with scene := Scene.confirmDelete } fs0 rfl).2.2.2.1
     1 0 (Or.inr (by norm_num [AXIS_DEAD]))⟩

/-- C9 counterexample: in the ConfirmDelete scene with the cooldown already
at zero, a vertical stick deflection of magnitude 1 — beyond the 0.5
deadzone — produces no directional action and does not reset the cooldown
to 200 ms: the state is completely unchanged.  This contradicts the claim
that every sample exceeding the deadzone causes exactly one action and
resets the cooldown. -/
theorem C9_counterexample :
    AXIS_DEAD < (1 : ℚ) ∧
    { app0 with scene := Scene.confirmDelete }.axis_cooldown = 0 ∧
    handle_axis { app0 with scene := Scene.confirmDelete } fs0 (some (0, 1)) =
      { app0 with scene := Scene.confirmDelete } := by
  refine ⟨by norm_num [AXIS_DEAD], rfl, ?_⟩
  norm_num [handle_axis, handle_axis_core, AXIS_DEAD]

/-- If no axis comparison fires, the handler core reports no movement. -/
theorem handle_axis_core_nodead (app : AppState) (fs : FS) (ax ay : ℚ)
    (h1 : ¬ ax < -AXIS_DEAD) (h2 : ¬ AXIS_DEAD < ax)
    (h3 : ¬ ay < -AXIS_DEAD) (h4 : ¬ AXIS_DEAD < ay) :
    handle_axis_core app fs ax ay = (app, false) := by
  unfold handle_axis_core
  split_ifs <;>
    first
    | rfl
    | (exfalso
       rcases ‹ax < -AXIS_DEAD ∨ AXIS_DEAD < ax› with hh | hh
       · exact h1 hh
       · exact h2 hh)

/-- The handler core either does nothing or reports a movement. -/
theorem handle_axis_core_cases (app : AppState) (fs : FS) (ax ay : ℚ) :
    handle_axis_core app fs ax ay = (app, false) ∨
    (handle_axis_core app fs ax ay).2 = true := by
  unfold handle_axis_core
  split_ifs <;> simp

/-- C9 amended: the analog handler runs in a frame only once the axis
cooldown has decremented to zero; a sample whose magnitude stays within the
0.5 deadzone on both axes changes nothing; and every invocation either
changes nothing or performs the one action of the branch that fired and
resets the cooldown to 200 ms — so a held stick can never fire more than
one step per cooldown window. -/
theorem C9_axis_debounce :
    (∀ (app : AppState) (fs : FS) (inp : FrameInput),
      (process_events (frame_tick app inp.dt) fs inp.events).1.axis_cooldown ≠ 0 →
      run_frame app fs inp = process_events (frame_tick app inp.dt) fs inp.events) ∧
    (∀ (app : AppState) (fs : FS) (ax ay : ℚ),
      |ax| ≤ AXIS_DEAD → |ay| ≤ AXIS_DEAD → handle_axis app fs (some (ax, ay)) = app) ∧
    (∀ (app : AppState) (fs : FS) (axes : Option (ℚ × ℚ)),
      handle_axis app fs axes = app ∨
      (handle_axis app fs axes).axis_cooldown = AXIS_COOLDOWN) := by
  refine ⟨fun app fs inp hcool => ?_, fun app fs ax ay hx hy => ?_, fun app fs axes => ?_⟩
  · unfold run_frame
    dsimp only
    rw [if_neg]
    intro h
    exact hcool h.2
  · obtain ⟨hx1, hx2⟩ := abs_le.mp hx
    obtain ⟨hy1, hy2⟩ := abs_le.mp hy
    unfold handle_axis
    dsimp only
    rw [handle_axis_core_nodead app fs ax ay (by linarith) (by linarith) (by linarith)
      (by linarith)]
    rfl
  · match axes with
    | none => exact Or.inl rfl
    | some (ax, ay) =>
      rcases handle_axis_core_cases app fs ax ay with hcase | hcase
      · left
        unfold handle_axis
        dsimp only
        rw [hcase]
        rfl
      · right
        unfold handle_axis
        dsimp only
        rw [if_pos hcase]

/-- Witness for C9 amended: a pending 284 ms cooldown suppresses the
handler for the frame, and a one-third deflection (below the deadzone) is a
no-op. -/
theorem C9_witness :
    (process_events (frame_tick { app0 with axis_cooldown := 300 } 16) fs0 []).1.axis_cooldown ≠ 0 ∧
    run_frame { app0 with axis_cooldown := 300 } fs0 { dt := 16, events := [], axes := some (1, 0) } =
      process_events (frame_tick { app0 with axis_cooldown := 300 } 16) fs0 [] ∧
    |(1 : ℚ) / 3| ≤ AXIS_DEAD ∧
    handle_axis app0 fs0 (some (1 / 3, 0)) = app0 :=
  ⟨by decide,
   C9_axis_debounce.1 { app0 with axis_cooldown := 300 } fs0
     { dt := 16, events := [], axes := some (1, 0) } (by decide),
   by norm_num [AXIS_DEAD, abs_le],
   C9_axis_debounce.2.1 app0 fs0 (1 / 3) 0 (by norm_num [AXIS_DEAD, abs_le])
     (by norm_num [AXIS_DEAD, abs_le])⟩

/-- Python round of a nonnegative rational is nonnegative. -/
theorem pyRound_nonneg (q : ℚ) (h : 0 ≤ q) : 0 ≤ pyRound q := by
  unfold pyRound
  dsimp only
  have hf : 0 ≤ ⌊q⌋ := Int.floor_nonneg.mpr h
  split_ifs <;> omega

/-- Python round never exceeds an integer upper bound of its argument. -/
theorem pyRound_le (q : ℚ) (m : Int) (h : q ≤ (m : ℚ)) : pyRound q ≤ m := by
  unfold pyRound
  dsimp only
  have hf : ⌊q⌋ ≤ m := by
    have hm := Int.floor_le_floor h
    simpa using hm
  have key : (1 / 2 : ℚ) ≤ q - ⌊q⌋ → ⌊q⌋ + 1 ≤ m := by
    intro hr
    have hq : (⌊q⌋ : ℚ) < (m : ℚ) := by
      have := Int.floor_le q
      linarith
    exact Int.add_one_le_iff.mpr (by exact_mod_cast hq)
  split_ifs with h1 h2 h3
  · exact hf
  · exact key (le_of_lt h2)
  · exact hf
  · exact key (le_of_not_lt h1)

/-- Python round of an integer is that integer. -/
theorem pyRound_intCast (n : Int) : pyRound ((n : ℚ)) = n := by
  unfold pyRound
  dsimp only
  rw [Int.floor_intCast]
  norm_num

/-- The column remap of a row-changing vertical keyboard move, spelled out. -/
theorem move_kb_vertical (app : AppState) (drow : Int) (hdrow : drow ≠ 0)
    (hnr : (max 0 (min ((app.kb_row : Int) + drow) ((KB_ROWS.length : Int) - 1))).toNat ≠
      app.kb_row) :
    (move_kb app drow 0).kb_row =
      (max 0 (min ((app.kb_row : Int) + drow) ((KB_ROWS.length : Int) - 1))).toNat ∧
    (move_kb app drow 0).kb_col =
      (pyRound (((app.kb_col : ℚ) /
          ((max 1 (((KB_ROWS.getD app.kb_row []).length : Int) - 1) : Int) : ℚ)) *
        ((max 1 (((KB_ROWS.getD ((max 0 (min ((app.kb_row : Int) + drow)
            ((KB_ROWS.length : Int) - 1))).toNat) []).length : Int) - 1) : Int) : ℚ))).toNat := by
  unfold move_kb
  dsimp only
  rw [if_neg (by simp), if_pos hdrow, if_pos hnr]
  exact ⟨rfl, rfl⟩

/-- C8: in the virtual keyboard, horizontal movement clamps the column to
the current row's bounds without changing the row; vertical movement clamps
the row into [0, 4] and, when the row changes, remaps the column by the
proportional formula `round((col / max(1, len(old)-1)) * max(1, len(new)-1))`
(with Python's round-half-to-even); in particular moving from the 10-key
row at column 9 down to the 7-key row lands on column 6; and from any
in-range position the result is always in range for the 5-row layout. -/
theorem C8_keyboard_movement :
    (∀ (app : AppState) (drow dcol : Int), dcol ≠ 0 →
      (move_kb app drow dcol).kb_row = app.kb_row ∧
      (move_kb app drow dcol).kb_col =
        (max 0 (min ((app.kb_col : Int) + dcol)
          (((KB_ROWS.getD app.kb_row []).length : Int) - 1))).toNat) ∧
    (∀ (app : AppState) (drow : Int), drow ≠ 0 →
      (max 0 (min ((app.kb_row : Int) + drow) ((KB_ROWS.length : Int) - 1))).toNat ≠ app.kb_row →
      (move_kb app drow 0).kb_row =
        (max 0 (min ((app.kb_row : Int) + drow) ((KB_ROWS.length : Int) - 1))).toNat ∧
      (move_kb app drow 0).kb_col =
        (pyRound (((app.kb_col : ℚ) /
            ((max 1 (((KB_ROWS.getD app.kb_row []).length : Int) - 1) : Int) : ℚ)) *
          ((max 1 (((KB_ROWS.getD ((max 0 (min ((app.kb_row : Int) + drow)
              ((KB_ROWS.length : Int) - 1))).toNat) []).length : Int) - 1) : Int) : ℚ))).toNat) ∧
    ((move_kb { app0 with scene := Scene.rename, kb_row := 1, kb_col := 9 } 2 0).kb_row = 3 ∧
     (move_kb { app0 with scene := Scene.rename, kb_row := 1, kb_col := 9 } 2 0).kb_col = 6) ∧
    (∀ (app : AppState) (drow dcol : Int),
      app.kb_row < KB_ROWS.length →
      app.kb_col < (KB_ROWS.getD app.kb_row []).length →
      (move_kb app drow dcol).kb_row < KB_ROWS.length ∧
      (move_kb app drow dcol).kb_col <
        (KB_ROWS.getD (move_kb app drow dcol).kb_row []).length) := by
  refine ⟨fun app drow dcol hdcol => ?_, fun app drow hdrow hnr => move_kb_vertical app drow hdrow hnr, ?_,
    fun app drow dcol hrow hcol => ?_⟩
  · unfold move_kb
    dsimp only
    rw [if_pos hdcol]
    exact ⟨rfl, rfl⟩
  · constructor
    · decide
    · rw [(move_kb_vertical { app0 with scene := Scene.rename, kb_row := 1, kb_col := 9 } 2
        (by decide) (by decide)).2]
      rw [show (max 1 (((KB_ROWS.getD ({ app0 with scene := Scene.rename, kb_row := 1, kb_col := 9 } : AppState).kb_row []).length : Int) - 1) : Int) = 9 from by decide]
      rw [show (max 1 (((KB_ROWS.getD ((max 0 (min ((({ app0 with scene := Scene.rename, kb_row := 1, kb_col := 9 } : AppState).kb_row : Int) + 2) ((KB_ROWS.length : Int) - 1))).toNat) []).length : Int) - 1) : Int) = 6 from by decide]
      rw [show ((({ app0 with scene := Scene.rename, kb_row := 1, kb_col := 9 } : AppState).kb_col : ℚ) / ((9 : Int) : ℚ)) * (((6 : Int)) : ℚ) = ((6 : Int) : ℚ) from by norm_num [show ({ app0 with scene := Scene.rename, kb_row := 1, kb_col := 9 } : AppState).kb_col = 9 from rfl]]
      rw [pyRound_intCast]
      rfl
  · have h5 : KB_ROWS.length = 5 := rfl
    have hlen2 : ∀ r, r < 5 → 2 ≤ (KB_ROWS.getD r []).length := by decide
    unfold move_kb
    dsimp only
    split_ifs with h1 h2 h3
    · dsimp only
      refine ⟨hrow, ?_⟩
      have hL : 0 < (KB_ROWS.getD app.kb_row []).length := lt_of_le_of_lt (Nat.zero_le _) hcol
      omega
    · dsimp only
      set nr := (max 0 (min ((app.kb_row : Int) + drow) ((KB_ROWS.length : Int) - 1))).toNat
        with hnr
      have hnr5 : nr < 5 := by omega
      have hnewlen : 2 ≤ (KB_ROWS.getD nr []).length := hlen2 nr hnr5
      have holdlen : 1 ≤ (KB_ROWS.getD app.kb_row []).length :=
        lt_of_le_of_lt (Nat.zero_le _) hcol
      have hd1 : (1 : Int) ≤ max 1 (((KB_ROWS.getD app.kb_row []).length : Int) - 1) :=
        le_max_left _ _
      have hcolle : (app.kb_col : Int) ≤
          max 1 (((KB_ROWS.getD app.kb_row []).length : Int) - 1) := by
        omega
      have hfrac1 : ((app.kb_col : ℚ) /
          ((max 1 (((KB_ROWS.getD app.kb_row []).length : Int) - 1) : Int) : ℚ)) ≤ 1 := by
        rw [div_le_one (by exact_mod_cast lt_of_lt_of_le zero_lt_one hd1)]
        exact_mod_cast hcolle
      have hfrac0 : 0 ≤ ((app.kb_col : ℚ) /
          ((max 1 (((KB_ROWS.getD app.kb_row []).length : Int) - 1) : Int) : ℚ)) := by
        apply div_nonneg
        · exact_mod_cast Nat.zero_le _
        · exact_mod_cast le_trans zero_le_one hd1
      have hM1 : (1 : Int) ≤ max 1 (((KB_ROWS.getD nr []).length : Int) - 1) := le_max_left _ _
      have hqle : ((app.kb_col : ℚ) /
            ((max 1 (((KB_ROWS.getD app.kb_row []).length : Int) - 1) : Int) : ℚ)) *
          ((max 1 (((KB_ROWS.getD nr []).length : Int) - 1) : Int) : ℚ) ≤
          ((max 1 (((KB_ROWS.getD nr []).length : Int) - 1) : Int) : ℚ) :=
        mul_le_of_le_one_left (by exact_mod_cast le_trans zero_le_one hM1) hfrac1
      have hq0 : 0 ≤ ((app.kb_col : ℚ) /
            ((max 1 (((KB_ROWS.getD app.kb_row []).length : Int) - 1) : Int) : ℚ)) *
          ((max 1 (((KB_ROWS.getD nr []).length : Int) - 1) : Int) : ℚ) :=
        mul_nonneg hfrac0 (by exact_mod_cast le_trans zero_le_one hM1)
      have hple := pyRound_le _ _ hqle
      have hp0 := pyRound_nonneg _ hq0
      refine ⟨by omega, by omega⟩
    · exact ⟨hrow, hcol⟩
    · exact ⟨hrow, hcol⟩

/-- Witness for C8 at concrete in-range positions: a right move on the top
row and a downward move from the qwerty row. -/
theorem C8_witness :
    ((move_kb { app0 with scene := Scene.rename, kb_row := 0, kb_col := 3 } 0 1).kb_row <
       KB_ROWS.length ∧
     (move_kb { app0 with scene := Scene.rename, kb_row := 0, kb_col := 3 } 0 1).kb_col <
       (KB_ROWS.getD
         (move_kb { app0 with scene := Scene.rename, kb_row := 0, kb_col := 3 } 0 1).kb_row
         []).length) ∧
    (move_kb { app0 with scene := Scene.rename, kb_row := 0, kb_col := 3 } 0 1).kb_row =
      { app0 with scene := Scene.rename, kb_row := 0, kb_col := 3 }.kb_row :=
  ⟨C8_keyboard_movement.2.2.2 { app0 with scene := Scene.rename, kb_row := 0, kb_col := 3 }
     0 1 (by decide) (by decide),
   (C8_keyboard_movement.1 { app0 with scene := Scene.rename, kb_row := 0, kb_col := 3 }
     0 1 (by decide)).1⟩
